import Mathlib

/-!
Verification of the RAG Web Browser actor (apify/actor-serp-content-crawler).

The development shallowly embeds the actor's request-validation and routing
logic (`src/input.ts`, `src/main.ts`) and, for the components whose sources are
not part of the repository snapshot (`responses.ts`, `crawlers.ts`, `utils.ts`,
`const.ts`), models them from the specification, as marked on each definition.
-/

namespace Rag

/-- Error classes of `errors.ts`: `UserInputError` for malformed query
parameters, and a catch-all for any other exception reaching the handler. -/
inductive AppError where
  | userInputError (msg : String)
  | otherError (msg : String)
deriving DecidableEq, Repr

/-- The message carried by an error, used for the JSON errorMessage body. -/
def AppError.message : AppError → String
  | .userInputError m => m
  | .otherError m => m

/-- Caller input (`types.ts` `Input`), restricted to the fields read by
`validateAndFillInput` and the `/search` routing. Numeric query parameters may
be absent (`undefined` in JS), hence `Option Int`; `outputFormats` absent and
empty behave identically in the source, so both are the empty list. -/
structure Input where
  query : String
  maxResults : Option Int
  requestTimeoutSecs : Option Int
  serpMaxRetries : Option Int
  maxRequestRetries : Option Int
  outputFormats : List String
  serpProxyGroup : String
  dynamicContentWaitSecs : Int
deriving DecidableEq, Repr

/-- Equality of processing results is decidable; used to evaluate the embedded
validation on concrete requests. -/
instance : DecidableEq (Except AppError Input)
  | .error a, .error b => decidable_of_iff (a = b) (by simp)
  | .error _, .ok _ => .isFalse (by simp)
  | .ok _, .error _ => .isFalse (by simp)
  | .ok a, .ok b => decidable_of_iff (a = b) (by simp)

/-- Modelled from the spec: `const.ts` with the `defaults` record is not under
src/. The values come from the README parameter table (maxResults default 3,
maximum 100; requestTimeoutSecs default 30; search retries default 1; output
format default markdown; proxy group default GOOGLE_SERP); the bounds the
README does not state are representative positive constants. -/
structure DefaultsRecord where
  maxResults : Int
  maxResultsMax : Int
  requestTimeoutSecs : Int
  requestTimeoutSecsMax : Int
  serpMaxRetries : Int
  serpMaxRetriesMax : Int
  maxRequestRetries : Int
  maxRequestRetriesMax : Int
  outputFormats : List String
deriving DecidableEq, Repr

/-- The configured default and maximum parameter values. -/
def defaults : DefaultsRecord :=
  { maxResults := 3
    maxResultsMax := 100
    requestTimeoutSecs := 30
    requestTimeoutSecsMax := 300
    serpMaxRetries := 1
    serpMaxRetriesMax := 5
    maxRequestRetries := 1
    maxRequestRetriesMax := 3
    outputFormats := ["markdown"] }

/-- The `validateRange` helper of `validateAndFillInput` (input.ts): an absent
or below-minimum value falls back to the default, a value above the maximum is
clamped to the maximum, and anything else is kept unchanged. It never throws. -/
def validateRange (value : Option Int) (min max defaultValue : Int) : Int :=
  match value with
  | none => defaultValue
  | some v => if v < min then defaultValue else if v > max then max else v

/-- `Math.round(requestTimeoutSecs / 2)` as used at input.ts:116; for the
positive integers reaching that line, JS half-up rounding equals `(x + 1) / 2`
with truncating division. -/
def roundHalf (x : Int) : Int := (x + 1) / 2

/-- The output-format list after the empty/absent fallback of input.ts:106-108:
an absent or empty array is replaced by the default formats. -/
def effectiveOutputFormats (input : Input) : List String :=
  if input.outputFormats = [] then defaults.outputFormats else input.outputFormats

/-- `validateAndFillInput` (input.ts:80-118): throws `UserInputError` for a
missing/empty query, an unsupported output format, or an unsupported SERP proxy
group; clamps the four numeric parameters into their ranges via `validateRange`;
and caps `dynamicContentWaitSecs` at half of the validated request timeout.
Mutation of the JS `input` object is rendered as returning the updated record. -/
def validateAndFillInput (input : Input) : Except AppError Input :=
  if input.query = "" then
    .error (.userInputError "The query parameter must be provided and non-empty")
  else if ¬ (∀ f ∈ effectiveOutputFormats input, f = "text" ∨ f = "markdown" ∨ f = "html") then
    .error (.userInputError "The outputFormats parameter must contain only text, markdown or html")
  else if ¬ (input.serpProxyGroup = "GOOGLE_SERP" ∨ input.serpProxyGroup = "SHADER") then
    .error (.userInputError "The serpProxyGroup parameter must be either GOOGLE_SERP or SHADER")
  else
    .ok { input with
      maxResults := some (validateRange input.maxResults 1 defaults.maxResultsMax defaults.maxResults)
      requestTimeoutSecs := some (validateRange input.requestTimeoutSecs 1 defaults.requestTimeoutSecsMax defaults.requestTimeoutSecs)
      serpMaxRetries := some (validateRange input.serpMaxRetries 0 defaults.serpMaxRetriesMax defaults.serpMaxRetries)
      maxRequestRetries := some (validateRange input.maxRequestRetries 0 defaults.maxRequestRetriesMax defaults.maxRequestRetries)
      outputFormats := effectiveOutputFormats input
      dynamicContentWaitSecs :=
        if validateRange input.requestTimeoutSecs 1 defaults.requestTimeoutSecsMax defaults.requestTimeoutSecs ≤ input.dynamicContentWaitSecs
        then roundHalf (validateRange input.requestTimeoutSecs 1 defaults.requestTimeoutSecsMax defaults.requestTimeoutSecs)
        else input.dynamicContentWaitSecs }

/-- Modelled from the spec: `interpretAsUrl` lives in utils.ts, which is not
under src/. Per §4.4 classification is purely syntactic URL matching with
normalization to an absolute form; we classify strings carrying an explicit
http/https scheme (checked on the character sequence) and normalization is the
identity on them. -/
def interpretAsUrl (query : String) : Option String :=
  if query.data.take 7 = "http://".data ∨ query.data.take 8 = "https://".data
  then some query else none

/-- Observable side effects of the `/search` handler (main.ts `getSearch`):
time-measure checkpoints stamped on the request, the single extraction request
enqueued for a direct URL (with its discovery rank), the search request handed
to the search crawler, and the scheduled response timeout. -/
inductive CrawlAction where
  | timeMeasureEvent (name : String)
  | playwrightCrawlRequest (url : String) (rank : Nat)
  | searchRequest (query : String) (maxResults : Int)
  | scheduleTimeout (secs : Int)
deriving DecidableEq, Repr

/-- The `/search` GET handler (main.ts:29-78) as a function from the parsed
query parameters to either the thrown error or the ordered list of observable
actions: process/validate the input, classify the query, stamp the
request-received checkpoint, enqueue either a single direct-URL extraction
request (at discovery rank 0) or a search request, and schedule the response
timeout. -/
def getSearch (params : Input) : Except AppError (List CrawlAction) :=
  match validateAndFillInput params with
  | .error e => .error e
  | .ok input =>
    match interpretAsUrl input.query with
    | some url =>
      .ok [.timeMeasureEvent "request-received",
           .playwrightCrawlRequest url 0,
           .scheduleTimeout (input.requestTimeoutSecs.getD defaults.requestTimeoutSecs)]
    | none =>
      .ok [.timeMeasureEvent "request-received",
           .searchRequest input.query (input.maxResults.getD defaults.maxResults),
           .scheduleTimeout (input.requestTimeoutSecs.getD defaults.requestTimeoutSecs)]

/-- Status code chosen by the catch block of `getSearch` (main.ts:70-77):
`UserInputError` is surfaced as 400, anything else as 500. -/
def errorStatusCode (e : AppError) : Nat :=
  match e with
  | .userInputError _ => 400
  | .otherError _ => 500

/-- Body of an immediate HTTP response from the handler. -/
inductive ResponseBody where
  | errorMessage (msg : String)
deriving DecidableEq, Repr

/-- An HTTP response written by the handler. -/
structure HttpResponse where
  status : Nat
  body : ResponseBody
deriving DecidableEq, Repr

/-- The catch block of `getSearch`: every thrown error is answered immediately
with its status code and a JSON errorMessage body. -/
def handleError (e : AppError) : HttpResponse :=
  { status := errorStatusCode e, body := .errorMessage e.message }

/-- The immediate HTTP response of the `/search` handler: `none` when input
processing succeeds (the response is only resolved later by the crawlers), or
the error response produced by the catch block. -/
def getSearchResponse (params : Input) : Option HttpResponse :=
  match getSearch params with
  | .ok _ => none
  | .error e => some (handleError e)

/-- Status of one extraction item (spec §3, `ExtractionItem.status`). -/
inductive ItemStatus where
  | pending
  | succeeded
  | failed
  | timedOut
deriving DecidableEq, Repr

/-- Modelled from the spec: the JobStore and its finalize path live in
responses.ts, which is not under src/. A CrawlJob keeps the per-item statuses in
discovery-rank order plus the finalized flag (spec §3, §4.3). -/
structure CrawlJob where
  items : List ItemStatus
  finalized : Bool
deriving DecidableEq, Repr

/-- How the deadline finalization settles one item (spec §4.3 / §7): an item
still Pending is marked TimedOut, every already-settled item keeps its status. -/
def settleForDeadline (s : ItemStatus) : ItemStatus :=
  if s = .pending then .timedOut else s

/-- Modelled from the spec: `finalize(jobId, reason=DeadlineExceeded)`
(spec §4.3) — a no-op when the job is already Finalized, otherwise marks every
still-Pending item TimedOut and transitions the job to Finalized. -/
def finalize (job : CrawlJob) : CrawlJob :=
  if job.finalized then job
  else { items := job.items.map settleForDeadline, finalized := true }

/-- Modelled from the spec: responses.ts is not under src/. One extraction
completion event carries the discovery rank it was tagged with and its payload;
applying it settles exactly that rank's result slot (spec §4.3). A rank beyond
the job's item list is ignored. -/
def applyCompletion (slots : List (Option Nat)) (c : Nat × Nat) : List (Option Nat) :=
  slots.set c.1 (some c.2)

/-- Folds a list of completion events over the result slots, in arrival order. -/
def applyCompletions (slots : List (Option Nat)) (cs : List (Nat × Nat)) : List (Option Nat) :=
  cs.foldl applyCompletion slots

/-- Modelled from the spec: the ResultAssembler (spec §4.7) emits one record per
discovery rank, in stored (discovery) order — never completion order — pairing
each rank with its settled slot. -/
def assemble (n : Nat) (cs : List (Nat × Nat)) : List (Nat × Option Nat) :=
  (List.range n).zip (applyCompletions (List.replicate n none) cs)

/-- Output formats the extraction pool can produce (types.ts `OutputFormats`). -/
inductive OutputFormat where
  | text
  | markdown
  | html
deriving DecidableEq, Repr

/-- Numeric code of an output format inside the serialized crawler key. -/
def OutputFormat.code : OutputFormat → Nat
  | .text => 0
  | .markdown => 1
  | .html => 2

/-- Modelled from the spec: the effective pool configuration hashed by
`getPlaywrightCrawlerKey` (crawlers.ts, not under src/) — the tunables of spec
§4.1: concurrency bounds, retry limit, per-page timeout, output formats,
cookie-removal flag, debug flag. -/
structure PoolConfig where
  minConcurrency : Nat
  maxConcurrency : Nat
  maxRequestRetries : Nat
  requestTimeoutSecs : Nat
  outputFormats : List OutputFormat
  removeCookieWarnings : Bool
  debugMode : Bool
deriving DecidableEq, Repr

/-- Modelled from the spec: `getPlaywrightCrawlerKey` (crawlers.ts, not under
src/) canonically serializes the configuration — fixed field order, a length
header before the variable-length format list — mirroring the JSON.stringify
key of the source (spec §4.1: same config gives same key, any field change
gives a different key). -/
def getPlaywrightCrawlerKey (c : PoolConfig) : List Nat :=
  [c.minConcurrency, c.maxConcurrency, c.maxRequestRetries, c.requestTimeoutSecs,
   cond c.removeCookieWarnings 1 0, cond c.debugMode 1 0,
   c.outputFormats.length] ++ c.outputFormats.map OutputFormat.code

/-- Modelled from the spec: the crawler registry kept by crawlers.ts (not under
src/) — a map from serialized key to the running pool instance, here identified
by the order of creation; `nextId` supplies fresh pool identities. -/
structure Registry where
  entries : List (List Nat × Nat)
  nextId : Nat
deriving DecidableEq, Repr

/-- The registry before any pool has been created. -/
def emptyRegistry : Registry := { entries := [], nextId := 0 }

/-- Modelled from the spec (§4.2): acquire a pool for a configuration — compute
the key, hand out the cached instance when present, otherwise create a fresh
one and cache it under the key. -/
def acquirePool (r : Registry) (c : PoolConfig) : Registry × Nat :=
  match r.entries.lookup (getPlaywrightCrawlerKey c) with
  | some id => (r, id)
  | none =>
    ({ entries := (getPlaywrightCrawlerKey c, r.nextId) :: r.entries, nextId := r.nextId + 1 },
     r.nextId)

/-- Modelled from the spec (§4.2): single-flight creation state of one
fingerprint in `createAndStartCrawlers` (crawlers.ts, not under src/): either no
creation has started, one creation is in flight with the callers awaiting it,
or the pool is ready. -/
inductive FlightState where
  | absent
  | creating (waiters : Nat)
  | ready (handle : Nat)
deriving DecidableEq, Repr

/-- Single-flight creation bookkeeping for one fingerprint, together with the
number of pool-creation calls issued to the underlying engine. -/
structure SingleFlight where
  state : FlightState
  creations : Nat
deriving DecidableEq, Repr

/-- Modelled from the spec (§4.2): one caller requests the pool — the first
request issues the single creation call; callers arriving while creation is in
flight only join the waiters; once ready no further call is needed. -/
def requestPool (s : SingleFlight) : SingleFlight :=
  match s.state with
  | .absent => { state := .creating 1, creations := s.creations + 1 }
  | .creating w => { s with state := .creating (w + 1) }
  | .ready _ => s

/-- `n` callers requesting the same fingerprint before creation completes. -/
def requestPoolN : Nat → SingleFlight → SingleFlight
  | 0, s => s
  | n + 1, s => requestPoolN n (requestPool s)

/-- Result of the engine's creation call: the pool handle, or a failure. -/
inductive CreationOutcome where
  | success (handle : Nat)
  | failure
deriving DecidableEq, Repr

/-- Modelled from the spec (§4.2): creation completes — every waiter of the
in-flight creation receives the same outcome; on failure the fingerprint is
evicted so a future request may retry. -/
def completeCreation (s : SingleFlight) (res : CreationOutcome) :
    SingleFlight × List CreationOutcome :=
  match s.state with
  | .creating w =>
    ({ state := match res with
        | .success h => .ready h
        | .failure => .absent,
       creations := s.creations },
     List.replicate w res)
  | _ => (s, [])

/-- Modelled from the spec: the open-response table of responses.ts (not under
src/), reduced to the scheduled absolute deadline of each live job's response.
`addTimeoutToAllResponses` reschedules every deadline to fire within the grace
window, shortening and never lengthening (spec §4.6). -/
def addTimeoutToAllResponses (now graceSecs : Int) (deadlines : List Int) : List Int :=
  deadlines.map (fun d => min d (now + graceSecs))

/-- The `migrating` handler (main.ts:25-27): on the host migrating signal, apply
a 60 second grace window to every live response deadline. -/
def migratingHandler (now : Int) (deadlines : List Int) : List Int :=
  addTimeoutToAllResponses now 60 deadlines

/-- The parameters of a direct-URL request, used to exercise the URL branch of
the handler on a concrete input. -/
def directUrlInput : Input :=
  { query := "https://apify.com", maxResults := some 3, requestTimeoutSecs := some 30,
    serpMaxRetries := some 1, maxRequestRetries := some 1, outputFormats := ["markdown"],
    serpProxyGroup := "GOOGLE_SERP", dynamicContentWaitSecs := 10 }

/-- A request whose maxResults parameter 101 exceeds the configured maximum. -/
def overMaxInput : Input :=
  { query := "apify", maxResults := some 101, requestTimeoutSecs := some 30,
    serpMaxRetries := some 1, maxRequestRetries := some 1, outputFormats := ["markdown"],
    serpProxyGroup := "GOOGLE_SERP", dynamicContentWaitSecs := 10 }

/-- A request with all four numeric parameters out of range. -/
def allOutOfRangeInput : Input :=
  { query := "apify", maxResults := some 101, requestTimeoutSecs := some 100000,
    serpMaxRetries := some (-7), maxRequestRetries := some 50, outputFormats := ["markdown"],
    serpProxyGroup := "GOOGLE_SERP", dynamicContentWaitSecs := 10 }

/-- A request with an empty query string. -/
def emptyQueryInput : Input :=
  { query := "", maxResults := some 3, requestTimeoutSecs := some 30,
    serpMaxRetries := some 1, maxRequestRetries := some 1, outputFormats := ["markdown"],
    serpProxyGroup := "GOOGLE_SERP", dynamicContentWaitSecs := 10 }

/-- A request left entirely in range, used to exercise the wait-cap branch. -/
def longWaitInput : Input :=
  { query := "apify", maxResults := some 3, requestTimeoutSecs := some 30,
    serpMaxRetries := some 1, maxRequestRetries := some 1, outputFormats := ["markdown"],
    serpProxyGroup := "GOOGLE_SERP", dynamicContentWaitSecs := 45 }

lemma validateAndFillInput_ok_iff (params out : Input) :
    validateAndFillInput params = .ok out ↔
      ¬ params.query = "" ∧
      (∀ f ∈ effectiveOutputFormats params, f = "text" ∨ f = "markdown" ∨ f = "html") ∧
      (params.serpProxyGroup = "GOOGLE_SERP" ∨ params.serpProxyGroup = "SHADER") ∧
      out = { params with
        maxResults := some (validateRange params.maxResults 1 defaults.maxResultsMax defaults.maxResults)
        requestTimeoutSecs := some (validateRange params.requestTimeoutSecs 1 defaults.requestTimeoutSecsMax defaults.requestTimeoutSecs)
        serpMaxRetries := some (validateRange params.serpMaxRetries 0 defaults.serpMaxRetriesMax defaults.serpMaxRetries)
        maxRequestRetries := some (validateRange params.maxRequestRetries 0 defaults.maxRequestRetriesMax defaults.maxRequestRetries)
        outputFormats := effectiveOutputFormats params
        dynamicContentWaitSecs :=
          if validateRange params.requestTimeoutSecs 1 defaults.requestTimeoutSecsMax defaults.requestTimeoutSecs ≤ params.dynamicContentWaitSecs
          then roundHalf (validateRange params.requestTimeoutSecs 1 defaults.requestTimeoutSecsMax defaults.requestTimeoutSecs)
          else params.dynamicContentWaitSecs } := by
  unfold validateAndFillInput
  by_cases h1 : params.query = ""
  · simp [h1]
  rw [if_neg h1]
  by_cases h2 : ∀ f ∈ effectiveOutputFormats params, f = "text" ∨ f = "markdown" ∨ f = "html"
  · rw [if_neg (not_not_intro h2)]
    by_cases h3 : params.serpProxyGroup = "GOOGLE_SERP" ∨ params.serpProxyGroup = "SHADER"
    · rw [if_neg (not_not_intro h3)]
      simp only [Except.ok.injEq]
      constructor
      · intro h
        exact ⟨h1, h2, h3, h.symm⟩
      · rintro ⟨-, -, -, rfl⟩
        rfl
    · rw [if_pos h3]
      simp [h1, h2, h3]
  · rw [if_pos h2]
    simp [h1, h2]

lemma validateRange_bounds (value : Option Int) (min max defaultValue : Int)
    (hd1 : min ≤ defaultValue) (hd2 : defaultValue ≤ max) :
    min ≤ validateRange value min max defaultValue ∧
      validateRange value min max defaultValue ≤ max := by
  cases value with
  | none => exact ⟨hd1, hd2⟩
  | some v =>
    simp only [validateRange]
    split_ifs with hlo hhi
    · exact ⟨hd1, hd2⟩
    · omega
    · omega

lemma applyCompletions_cons (slots : List (Option Nat)) (c : Nat × Nat)
    (cs : List (Nat × Nat)) :
    applyCompletions slots (c :: cs) = applyCompletions (applyCompletion slots c) cs := rfl

lemma applyCompletions_length (cs : List (Nat × Nat)) (slots : List (Option Nat)) :
    (applyCompletions slots cs).length = slots.length := by
  induction cs generalizing slots with
  | nil => rfl
  | cons c cs ih =>
    rw [applyCompletions_cons, ih]
    simp [applyCompletion]

lemma applyCompletions_getElem?_of_not_mem (cs : List (Nat × Nat))
    (slots : List (Option Nat)) (i : Nat) (h : ∀ v, (i, v) ∉ cs) :
    (applyCompletions slots cs)[i]? = slots[i]? := by
  induction cs generalizing slots with
  | nil => rfl
  | cons c cs ih =>
    rw [applyCompletions_cons, ih]
    · have hne : c.1 ≠ i := by
        intro heq
        exact h c.2 (by simp [← heq])
      simp [applyCompletion, List.getElem?_set_ne hne]
    · intro v hv
      exact h v (List.mem_cons_of_mem _ hv)

lemma applyCompletions_getElem?_of_mem (cs : List (Nat × Nat))
    (slots : List (Option Nat)) (i v : Nat) (hmem : (i, v) ∈ cs)
    (hnd : (cs.map Prod.fst).Nodup) (hi : i < slots.length) :
    (applyCompletions slots cs)[i]? = some (some v) := by
  induction cs generalizing slots with
  | nil => cases hmem
  | cons c cs ih =>
    simp only [List.map_cons, List.nodup_cons] at hnd
    rcases List.mem_cons.mp hmem with hc | hc
    · subst hc
      rw [applyCompletions_cons, applyCompletions_getElem?_of_not_mem]
      · simp [applyCompletion, List.getElem?_set_self, hi]
      · intro w hw
        exact hnd.1 (by simpa using List.mem_map_of_mem Prod.fst hw)
    · rw [applyCompletions_cons]
      exact ih _ hc hnd.2 (by simpa [applyCompletion] using hi)

lemma applyCompletions_perm_eq (cs₁ cs₂ : List (Nat × Nat))
    (hperm : cs₁.Perm cs₂) (hnd : (cs₁.map Prod.fst).Nodup)
    (slots : List (Option Nat)) :
    applyCompletions slots cs₁ = applyCompletions slots cs₂ := by
  have hnd₂ : (cs₂.map Prod.fst).Nodup := (hperm.map Prod.fst).nodup_iff.mp hnd
  apply List.ext_getElem?
  intro i
  by_cases hmem : ∃ v, (i, v) ∈ cs₁
  · obtain ⟨v, hv⟩ := hmem
    by_cases hi : i < slots.length
    · rw [applyCompletions_getElem?_of_mem cs₁ slots i v hv hnd hi,
        applyCompletions_getElem?_of_mem cs₂ slots i v (hperm.mem_iff.mp hv) hnd₂ hi]
    · have h₁ : (applyCompletions slots cs₁).length ≤ i := by
        rw [applyCompletions_length]; omega
      have h₂ : (applyCompletions slots cs₂).length ≤ i := by
        rw [applyCompletions_length]; omega
      rw [List.getElem?_eq_none h₁, List.getElem?_eq_none h₂]
  · push_neg at hmem
    rw [applyCompletions_getElem?_of_not_mem cs₁ slots i hmem,
      applyCompletions_getElem?_of_not_mem cs₂ slots i
        (fun v hv => hmem v (hperm.mem_iff.mpr hv))]

lemma getPlaywrightCrawlerKey_injective (c₁ c₂ : PoolConfig)
    (h : getPlaywrightCrawlerKey c₁ = getPlaywrightCrawlerKey c₂) : c₁ = c₂ := by
  obtain ⟨a1, a2, a3, a4, a5, a6, a7⟩ := c₁
  obtain ⟨b1, b2, b3, b4, b5, b6, b7⟩ := c₂
  simp only [getPlaywrightCrawlerKey, List.cons_append, List.nil_append,
    List.cons.injEq] at h
  obtain ⟨h1, h2, h3, h4, h5, h6, hlen, hmap⟩ := h
  have hfmt : a5 = b5 := by
    have hinj : Function.Injective OutputFormat.code := by
      intro x y hxy
      cases x <;> cases y <;> simp [OutputFormat.code] at hxy ⊢
    exact List.map_injective_iff.mpr hinj hmap
  have hcookie : a6 = b6 := by cases a6 <;> cases b6 <;> simp_all
  have hdebug : a7 = b7 := by cases a7 <;> cases b7 <;> simp_all
  simp_all

lemma requestPoolN_creating (n w c : Nat) :
    requestPoolN n { state := .creating w, creations := c } =
      { state := .creating (w + n), creations := c } := by
  induction n generalizing w with
  | zero => rfl
  | succ m ih =>
    simp only [requestPoolN, requestPool]
    rw [ih]
    congr 1
    simp
    omega

lemma getSearch_eq_of_ok (params input : Input)
    (hok : validateAndFillInput params = .ok input) :
    getSearch params =
      match interpretAsUrl input.query with
      | some url =>
        .ok [.timeMeasureEvent "request-received",
             .playwrightCrawlRequest url 0,
             .scheduleTimeout (input.requestTimeoutSecs.getD defaults.requestTimeoutSecs)]
      | none =>
        .ok [.timeMeasureEvent "request-received",
             .searchRequest input.query (input.maxResults.getD defaults.maxResults),
             .scheduleTimeout (input.requestTimeoutSecs.getD defaults.requestTimeoutSecs)] := by
  unfold getSearch
  rw [hok]

lemma getSearch_ok_of_ok (params input : Input)
    (hok : validateAndFillInput params = .ok input) :
    ∃ acts, getSearch params = .ok acts := by
  rw [getSearch_eq_of_ok params input hok]
  cases interpretAsUrl input.query <;> exact ⟨_, rfl⟩

lemma getSearchResponse_none_of_ok (params input : Input)
    (hok : validateAndFillInput params = .ok input) :
    getSearchResponse params = none := by
  obtain ⟨acts, h⟩ := getSearch_ok_of_ok params input hok
  unfold getSearchResponse
  rw [h]

lemma count_map_settleForDeadline (l : List ItemStatus) :
    (l.map settleForDeadline).count .timedOut = l.count .pending + l.count .timedOut := by
  induction l with
  | nil => rfl
  | cons s t ih =>
    cases s <;> simp [settleForDeadline, List.count_cons, ih] <;> omega

/-- Claim C1: when the deadline fires on a job that is not yet finalized,
finalize marks exactly the still-Pending items TimedOut (their count equals the
pending count), keeps every already-settled item's status, transitions the job
to Finalized, and a second finalize attempt — e.g. a late completion callback
racing the deadline timer — is a no-op. -/
theorem finalize_deadline_partial_result (job : CrawlJob) (h : job.finalized = false) :
    (finalize job).finalized = true ∧
    (∀ i : Nat, (finalize job).items[i]? = (job.items[i]?).map settleForDeadline) ∧
    (finalize job).items.count .timedOut =
      job.items.count .pending + job.items.count .timedOut ∧
    finalize (finalize job) = finalize job ∧
    (∀ j : CrawlJob, j.finalized = true → finalize j = j) := by
  have hfin : finalize job = { items := job.items.map settleForDeadline, finalized := true } := by
    simp [finalize, h]
  refine ⟨by rw [hfin], ?_, ?_, ?_, ?_⟩
  · intro i
    rw [hfin]
    simp [List.getElem?_map]
  · rw [hfin]
    exact count_map_settleForDeadline job.items
  · rw [hfin]
    simp [finalize]
  · intro j hj
    simp [finalize, hj]

/-- Witness for C1 at a four-item job with two Pending items. -/
theorem finalize_deadline_partial_result_witness :
    ({ items := [.succeeded, .pending, .failed, .pending], finalized := false } : CrawlJob).finalized = false ∧
    ((finalize { items := [.succeeded, .pending, .failed, .pending], finalized := false }).finalized = true ∧
     (∀ i : Nat,
       (finalize { items := [.succeeded, .pending, .failed, .pending], finalized := false }).items[i]? =
         (({ items := [.succeeded, .pending, .failed, .pending], finalized := false } : CrawlJob).items[i]?).map settleForDeadline) ∧
     (finalize { items := [.succeeded, .pending, .failed, .pending], finalized := false }).items.count .timedOut =
       ({ items := [.succeeded, .pending, .failed, .pending], finalized := false } : CrawlJob).items.count .pending +
         ({ items := [.succeeded, .pending, .failed, .pending], finalized := false } : CrawlJob).items.count .timedOut ∧
     finalize (finalize { items := [.succeeded, .pending, .failed, .pending], finalized := false }) =
       finalize { items := [.succeeded, .pending, .failed, .pending], finalized := false } ∧
     (∀ j : CrawlJob, j.finalized = true → finalize j = j)) :=
  ⟨rfl, finalize_deadline_partial_result _ rfl⟩

/-- Claim C2: whatever order a job's extraction completions arrive in (any
permutation of one completion per distinct rank), the assembled result array is
identical and is emitted in strictly increasing discovery-rank order, matching
the original discovery order and never the completion order. -/
theorem results_emitted_in_rank_order (n : Nat) (cs₁ cs₂ : List (Nat × Nat))
    (hperm : cs₁.Perm cs₂) (hnd : (cs₁.map Prod.fst).Nodup) :
    assemble n cs₁ = assemble n cs₂ ∧
    (assemble n cs₁).map Prod.fst = List.range n ∧
    ((assemble n cs₁).map Prod.fst).Sorted (· < ·) := by
  have hlen : (applyCompletions (List.replicate n (none : Option Nat)) cs₁).length = n := by
    rw [applyCompletions_length]
    simp
  have hfst : (assemble n cs₁).map Prod.fst = List.range n := by
    unfold assemble
    exact List.map_fst_zip _ _ (by rw [hlen, List.length_range])
  refine ⟨?_, hfst, ?_⟩
  · unfold assemble
    rw [applyCompletions_perm_eq cs₁ cs₂ hperm hnd]
  · rw [hfst]
    exact List.sorted_lt_range n

/-- Witness for C2: three completions arriving in the order 2, 0, 1 assemble
identically to arrival order 0, 1, 2, in rank order. -/
theorem results_emitted_in_rank_order_witness :
    ([((2 : Nat), (20 : Nat)), (0, 10), (1, 11)]).Perm [(0, 10), (1, 11), (2, 20)] ∧
    (([((2 : Nat), (20 : Nat)), (0, 10), (1, 11)]).map Prod.fst).Nodup ∧
    (assemble 3 [(2, 20), (0, 10), (1, 11)] = assemble 3 [(0, 10), (1, 11), (2, 20)] ∧
     (assemble 3 [(2, 20), (0, 10), (1, 11)]).map Prod.fst = List.range 3 ∧
     ((assemble 3 [(2, 20), (0, 10), (1, 11)]).map Prod.fst).Sorted (· < ·)) :=
  ⟨by decide, by decide,
   results_emitted_in_rank_order 3 [(2, 20), (0, 10), (1, 11)] [(0, 10), (1, 11), (2, 20)]
     (by decide) (by decide)⟩

/-- Claim C3: two field-for-field equal pool configurations compute the same
fingerprint key and the registry hands out the identical pool instance, while
configurations differing in at least one field compute different keys and
receive distinct instances. -/
theorem pool_reuse_by_fingerprint (c₁ c₂ : PoolConfig) :
    (getPlaywrightCrawlerKey c₁ = getPlaywrightCrawlerKey c₂ ↔ c₁ = c₂) ∧
    (c₁ = c₂ →
      (acquirePool (acquirePool emptyRegistry c₁).1 c₂).2 = (acquirePool emptyRegistry c₁).2) ∧
    (c₁ ≠ c₂ →
      (acquirePool (acquirePool emptyRegistry c₁).1 c₂).2 ≠ (acquirePool emptyRegistry c₁).2) := by
  refine ⟨⟨getPlaywrightCrawlerKey_injective c₁ c₂, fun h => by rw [h]⟩, ?_, ?_⟩
  · rintro rfl
    simp [acquirePool, emptyRegistry, List.lookup]
  · intro hne
    have hk : (getPlaywrightCrawlerKey c₂ == getPlaywrightCrawlerKey c₁) = false := by
      rw [beq_eq_false_iff_ne]
      exact fun h => hne (getPlaywrightCrawlerKey_injective c₂ c₁ h).symm
    simp [acquirePool, emptyRegistry, List.lookup, hk]

/-- Witness for C3 at two configurations differing only in the debug flag. -/
theorem pool_reuse_by_fingerprint_witness :
    (getPlaywrightCrawlerKey ⟨3, 5, 1, 30, [.markdown], true, false⟩ =
       getPlaywrightCrawlerKey ⟨3, 5, 1, 30, [.markdown], true, true⟩ ↔
     (⟨3, 5, 1, 30, [.markdown], true, false⟩ : PoolConfig) = ⟨3, 5, 1, 30, [.markdown], true, true⟩) ∧
    ((⟨3, 5, 1, 30, [.markdown], true, false⟩ : PoolConfig) = ⟨3, 5, 1, 30, [.markdown], true, true⟩ →
      (acquirePool (acquirePool emptyRegistry ⟨3, 5, 1, 30, [.markdown], true, false⟩).1
        ⟨3, 5, 1, 30, [.markdown], true, true⟩).2 =
      (acquirePool emptyRegistry ⟨3, 5, 1, 30, [.markdown], true, false⟩).2) ∧
    ((⟨3, 5, 1, 30, [.markdown], true, false⟩ : PoolConfig) ≠ ⟨3, 5, 1, 30, [.markdown], true, true⟩ →
      (acquirePool (acquirePool emptyRegistry ⟨3, 5, 1, 30, [.markdown], true, false⟩).1
        ⟨3, 5, 1, 30, [.markdown], true, true⟩).2 ≠
      (acquirePool emptyRegistry ⟨3, 5, 1, 30, [.markdown], true, false⟩).2) :=
  pool_reuse_by_fingerprint ⟨3, 5, 1, 30, [.markdown], true, false⟩ ⟨3, 5, 1, 30, [.markdown], true, true⟩

/-- Claim C4: n concurrent first-time acquisitions of the same fingerprint
issue exactly one pool-creation call to the engine, and on completion all n
callers receive the same outcome — the shared handle, or the shared failure. -/
theorem single_flight_creation (n : Nat) (hn : 1 ≤ n) (res : CreationOutcome) :
    (requestPoolN n { state := .absent, creations := 0 }).creations = 1 ∧
    (completeCreation (requestPoolN n { state := .absent, creations := 0 }) res).2 =
      List.replicate n res := by
  obtain ⟨m, rfl⟩ : ∃ m, n = m + 1 := ⟨n - 1, by omega⟩
  have hstep : requestPoolN (m + 1) { state := .absent, creations := 0 } =
      { state := .creating (1 + m), creations := 1 } := by
    show requestPoolN m (requestPool { state := .absent, creations := 0 }) = _
    simp only [requestPool]
    exact requestPoolN_creating m 1 1
  rw [hstep]
  refine ⟨rfl, ?_⟩
  simp only [completeCreation]
  rw [Nat.add_comm]

/-- Witness for C4 with three concurrent callers and a successful creation. -/
theorem single_flight_creation_witness :
    1 ≤ 3 ∧
    ((requestPoolN 3 { state := .absent, creations := 0 }).creations = 1 ∧
     (completeCreation (requestPoolN 3 { state := .absent, creations := 0 })
        (.success 7)).2 = List.replicate 3 (.success 7)) :=
  ⟨by decide, single_flight_creation 3 (by decide) (.success 7)⟩

/-- Claim C8: on the host migrating signal, every scheduled response deadline is
rescheduled to fire within the fixed 60 second grace window — the new deadline
never exceeds now + 60 and never exceeds the original deadline (shortened,
never lengthened) — and no deadline entry is dropped. -/
theorem migrating_shortens_deadlines (now : Int) (ds : List Int) (i : Nat) (d : Int)
    (hd : ds[i]? = some d) :
    (migratingHandler now ds)[i]? = some (min d (now + 60)) ∧
    min d (now + 60) ≤ d ∧
    min d (now + 60) ≤ now + 60 ∧
    (migratingHandler now ds).length = ds.length := by
  refine ⟨?_, min_le_left _ _, min_le_right _ _, ?_⟩
  · simp [migratingHandler, addTimeoutToAllResponses, List.getElem?_map, hd]
  · simp [migratingHandler, addTimeoutToAllResponses]

/-- Witness for C8: a deadline far past the migration instant is pulled into
the grace window. -/
theorem migrating_shortens_deadlines_witness :
    ([(1000 : Int), 120])[0]? = some 1000 ∧
    ((migratingHandler 100 [(1000 : Int), 120])[0]? = some (min 1000 (100 + 60)) ∧
     min (1000 : Int) (100 + 60) ≤ 1000 ∧
     min (1000 : Int) (100 + 60) ≤ 100 + 60 ∧
     (migratingHandler 100 [(1000 : Int), 120]).length = [(1000 : Int), 120].length) :=
  ⟨by decide, migrating_shortens_deadlines 100 [1000, 120] 0 1000 (by decide)⟩

/-- Claim C5: when the (validated) input classifies syntactically as a URL, the
handler submits exactly one extraction request, at discovery rank 0, directly
to the extraction crawler; it never hands the job to the search crawler; and
the only checkpoint recorded is request-received — no discovery-stage
checkpoint. -/
theorem direct_url_skips_search (params input : Input) (url : String)
    (hok : validateAndFillInput params = .ok input)
    (hurl : interpretAsUrl input.query = some url) :
    ∃ acts : List CrawlAction,
      getSearch params = .ok acts ∧
      acts.count (.playwrightCrawlRequest url 0) = 1 ∧
      (∀ q m, CrawlAction.searchRequest q m ∉ acts) ∧
      (∀ name, CrawlAction.timeMeasureEvent name ∈ acts → name = "request-received") := by
  refine ⟨[.timeMeasureEvent "request-received", .playwrightCrawlRequest url 0,
    .scheduleTimeout (input.requestTimeoutSecs.getD defaults.requestTimeoutSecs)], ?_, ?_, ?_, ?_⟩
  · simp [getSearch, hok, hurl]
  · simp [List.count_cons]
  · intro q m
    simp
  · intro name hmem
    simp only [List.mem_cons, List.not_mem_nil, or_false] at hmem
    rcases hmem with h | h | h
    · exact (CrawlAction.timeMeasureEvent.injEq _ _).mp h
    · cases h
    · cases h

/-- Witness for C5 at the parameter record of a direct-URL request. -/
theorem direct_url_skips_search_witness :
    validateAndFillInput directUrlInput = .ok directUrlInput ∧
    interpretAsUrl directUrlInput.query = some "https://apify.com" ∧
    (∃ acts : List CrawlAction,
      getSearch directUrlInput = .ok acts ∧
      acts.count (.playwrightCrawlRequest "https://apify.com" 0) = 1 ∧
      (∀ q m, CrawlAction.searchRequest q m ∉ acts) ∧
      (∀ name, CrawlAction.timeMeasureEvent name ∈ acts → name = "request-received")) :=
  ⟨by decide, by decide,
   direct_url_skips_search directUrlInput directUrlInput "https://apify.com"
     (by decide) (by decide)⟩

/-- Claim C6 counterexample: a GET /search request with the out-of-range
numeric parameter maxResults = 101 is not answered 400 — the handler writes no
error response at all; validation clamps the value to the configured maximum
100 and proceeds. -/
theorem out_of_range_not_rejected :
    getSearchResponse overMaxInput = none ∧
    validateAndFillInput overMaxInput = .ok { overMaxInput with maxResults := some 100 } := by
  constructor <;> decide

/-- Claim C6 (amended): an out-of-range numeric parameter never yields a 400 —
the server clamps it (a value above the maximum becomes the maximum, a missing
or below-minimum value becomes the default) and continues processing; 400 is
reserved for a missing/empty query, an invalid output format, or an invalid
SERP proxy group. -/
theorem out_of_range_numeric_clamped (params : Input)
    (hq : ¬ params.query = "")
    (hf : ∀ f ∈ effectiveOutputFormats params, f = "text" ∨ f = "markdown" ∨ f = "html")
    (hp : params.serpProxyGroup = "GOOGLE_SERP" ∨ params.serpProxyGroup = "SHADER") :
    getSearchResponse params = none ∧
    ∃ out : Input, validateAndFillInput params = .ok out ∧
      out.maxResults =
        some (validateRange params.maxResults 1 defaults.maxResultsMax defaults.maxResults) ∧
      out.requestTimeoutSecs =
        some (validateRange params.requestTimeoutSecs 1 defaults.requestTimeoutSecsMax
          defaults.requestTimeoutSecs) ∧
      out.serpMaxRetries =
        some (validateRange params.serpMaxRetries 0 defaults.serpMaxRetriesMax
          defaults.serpMaxRetries) ∧
      out.maxRequestRetries =
        some (validateRange params.maxRequestRetries 0 defaults.maxRequestRetriesMax
          defaults.maxRequestRetries) := by
  have hok := (validateAndFillInput_ok_iff params _).mpr ⟨hq, hf, hp, rfl⟩
  exact ⟨getSearchResponse_none_of_ok params _ hok, _, hok, rfl, rfl, rfl, rfl⟩

/-- Witness for the amended C6 at a request whose four numeric parameters are
all out of range. -/
theorem out_of_range_numeric_clamped_witness :
    (¬ allOutOfRangeInput.query = "") ∧
    (∀ f ∈ effectiveOutputFormats allOutOfRangeInput,
      f = "text" ∨ f = "markdown" ∨ f = "html") ∧
    (getSearchResponse allOutOfRangeInput = none ∧
     ∃ out : Input, validateAndFillInput allOutOfRangeInput = .ok out ∧
       out.maxResults =
         some (validateRange allOutOfRangeInput.maxResults 1 defaults.maxResultsMax
           defaults.maxResults) ∧
       out.requestTimeoutSecs =
         some (validateRange allOutOfRangeInput.requestTimeoutSecs 1 defaults.requestTimeoutSecsMax
           defaults.requestTimeoutSecs) ∧
       out.serpMaxRetries =
         some (validateRange allOutOfRangeInput.serpMaxRetries 0 defaults.serpMaxRetriesMax
           defaults.serpMaxRetries) ∧
       out.maxRequestRetries =
         some (validateRange allOutOfRangeInput.maxRequestRetries 0 defaults.maxRequestRetriesMax
           defaults.maxRequestRetries)) :=
  ⟨by decide, by decide,
   out_of_range_numeric_clamped allOutOfRangeInput (by decide) (by decide) (Or.inl rfl)⟩

/-- Claim C7: a missing or empty query makes input processing raise
UserInputError and the handler answer 400 with a JSON errorMessage body, while
any non-UserInputError exception is answered 500 with a JSON errorMessage
body. -/
theorem empty_query_400_other_500 (params : Input) (hq : params.query = "") :
    getSearchResponse params =
      some { status := 400,
             body := .errorMessage "The query parameter must be provided and non-empty" } ∧
    (∀ e : AppError, (∀ m, e ≠ .userInputError m) →
      handleError e = { status := 500, body := .errorMessage e.message }) := by
  constructor
  · simp [getSearchResponse, getSearch, validateAndFillInput, hq, handleError,
      errorStatusCode, AppError.message]
  · intro e he
    cases e with
    | userInputError m => exact absurd rfl (he m)
    | otherError m => rfl

/-- Witness for C7 at a request with an empty query string. -/
theorem empty_query_400_other_500_witness :
    emptyQueryInput.query = "" ∧
    (getSearchResponse emptyQueryInput =
       some { status := 400,
              body := .errorMessage "The query parameter must be provided and non-empty" } ∧
     (∀ e : AppError, (∀ m, e ≠ .userInputError m) →
       handleError e = { status := 500, body := .errorMessage e.message })) :=
  ⟨rfl, empty_query_400_other_500 emptyQueryInput rfl⟩

/-- Claim C9: after validation the effective maxResults always lies between 1
and the configured maximum; a value above the maximum is replaced by the
maximum, and a missing or below-minimum value is replaced by the configured
default. -/
theorem maxResults_within_bounds (params out : Input)
    (h : validateAndFillInput params = .ok out) :
    (∃ v : Int, out.maxResults = some v ∧ 1 ≤ v ∧ v ≤ defaults.maxResultsMax) ∧
    (∀ v : Int, params.maxResults = some v → defaults.maxResultsMax < v →
      out.maxResults = some defaults.maxResultsMax) ∧
    (∀ v : Int, params.maxResults = some v → v < 1 →
      out.maxResults = some defaults.maxResults) ∧
    (params.maxResults = none → out.maxResults = some defaults.maxResults) := by
  obtain ⟨-, -, -, rfl⟩ := (validateAndFillInput_ok_iff params out).mp h
  have h100 : defaults.maxResultsMax = (100 : Int) := rfl
  have hbounds := validateRange_bounds params.maxResults 1 defaults.maxResultsMax
    defaults.maxResults (by decide) (by decide)
  refine ⟨⟨_, rfl, hbounds.1, hbounds.2⟩, ?_, ?_, ?_⟩
  · intro v hv hgt
    show some (validateRange params.maxResults 1 defaults.maxResultsMax defaults.maxResults) =
      some defaults.maxResultsMax
    rw [hv]
    simp only [validateRange]
    rw [if_neg (by rw [h100] at hgt; omega), if_pos (by exact hgt)]
  · intro v hv hlt
    show some (validateRange params.maxResults 1 defaults.maxResultsMax defaults.maxResults) =
      some defaults.maxResults
    rw [hv]
    simp only [validateRange]
    rw [if_pos hlt]
  · intro hnone
    show some (validateRange params.maxResults 1 defaults.maxResultsMax defaults.maxResults) =
      some defaults.maxResults
    rw [hnone]
    rfl

/-- Witness for C9 at a request whose maxResults 101 exceeds the maximum. -/
theorem maxResults_within_bounds_witness :
    validateAndFillInput overMaxInput = .ok { overMaxInput with maxResults := some 100 } ∧
    ((∃ v : Int, ({ overMaxInput with maxResults := some 100 } : Input).maxResults = some v ∧
        1 ≤ v ∧ v ≤ defaults.maxResultsMax) ∧
     (∀ v : Int, overMaxInput.maxResults = some v → defaults.maxResultsMax < v →
       ({ overMaxInput with maxResults := some 100 } : Input).maxResults =
         some defaults.maxResultsMax) ∧
     (∀ v : Int, overMaxInput.maxResults = some v → v < 1 →
       ({ overMaxInput with maxResults := some 100 } : Input).maxResults =
         some defaults.maxResults) ∧
     (overMaxInput.maxResults = none →
       ({ overMaxInput with maxResults := some 100 } : Input).maxResults =
         some defaults.maxResults)) :=
  ⟨by decide, maxResults_within_bounds overMaxInput _ (by decide)⟩

/-- Claim C10: input processing never rejects a request because of
dynamicContentWaitSecs — validation succeeds for every value of that field —
and when the field reaches or exceeds the (validated) request timeout it is
silently replaced by round(requestTimeoutSecs / 2), otherwise left unchanged. -/
theorem dynamicContentWait_never_rejects (params out : Input)
    (h : validateAndFillInput params = .ok out) :
    (∀ d : Int, ∃ out2 : Input,
      validateAndFillInput { params with dynamicContentWaitSecs := d } = .ok out2) ∧
    (∀ rt : Int, out.requestTimeoutSecs = some rt →
      (rt ≤ params.dynamicContentWaitSecs → out.dynamicContentWaitSecs = roundHalf rt) ∧
      (params.dynamicContentWaitSecs < rt →
        out.dynamicContentWaitSecs = params.dynamicContentWaitSecs)) := by
  obtain ⟨hq, hf, hp, rfl⟩ := (validateAndFillInput_ok_iff params out).mp h
  constructor
  · intro d
    exact ⟨_, (validateAndFillInput_ok_iff _ _).mpr ⟨hq, hf, hp, rfl⟩⟩
  · intro rt hrt
    have hVR : validateRange params.requestTimeoutSecs 1 defaults.requestTimeoutSecsMax
        defaults.requestTimeoutSecs = rt := by
      simpa using hrt
    constructor
    · intro hle
      show (if validateRange params.requestTimeoutSecs 1 defaults.requestTimeoutSecsMax
              defaults.requestTimeoutSecs ≤ params.dynamicContentWaitSecs
            then roundHalf (validateRange params.requestTimeoutSecs 1
              defaults.requestTimeoutSecsMax defaults.requestTimeoutSecs)
            else params.dynamicContentWaitSecs) = roundHalf rt
      rw [hVR, if_pos hle]
    · intro hlt
      show (if validateRange params.requestTimeoutSecs 1 defaults.requestTimeoutSecsMax
              defaults.requestTimeoutSecs ≤ params.dynamicContentWaitSecs
            then roundHalf (validateRange params.requestTimeoutSecs 1
              defaults.requestTimeoutSecsMax defaults.requestTimeoutSecs)
            else params.dynamicContentWaitSecs) = params.dynamicContentWaitSecs
      rw [hVR, if_neg (by omega)]

/-- Witness for C10 at a request whose wait 45 exceeds its timeout 30, so the
wait is replaced by round(30 / 2) = 15. -/
theorem dynamicContentWait_never_rejects_witness :
    validateAndFillInput longWaitInput =
      .ok { longWaitInput with dynamicContentWaitSecs := 15 } ∧
    ((∀ d : Int, ∃ out2 : Input,
       validateAndFillInput { longWaitInput with dynamicContentWaitSecs := d } = .ok out2) ∧
     (∀ rt : Int,
       ({ longWaitInput with dynamicContentWaitSecs := 15 } : Input).requestTimeoutSecs = some rt →
       (rt ≤ longWaitInput.dynamicContentWaitSecs →
         ({ longWaitInput with dynamicContentWaitSecs := 15 } : Input).dynamicContentWaitSecs =
           roundHalf rt) ∧
       (longWaitInput.dynamicContentWaitSecs < rt →
         ({ longWaitInput with dynamicContentWaitSecs := 15 } : Input).dynamicContentWaitSecs =
           longWaitInput.dynamicContentWaitSecs))) :=
  ⟨by decide, dynamicContentWait_never_rejects longWaitInput _ (by decide)⟩

end Rag
